import Mathlib

/-!
Verification development for the image-processing gateway in
`src/image-service/server.py`: the admission controller
(`_acquire_slot` / `_release_slot`), the execution wrapper
(`_run_processing`), the metrics record (`Metrics`), the upload
validator (`_read_image`) and the per-stage timing closures of the
endpoints.  Python integers are modelled as `Nat` (the counters only
ever move by `+= 1` / `-= 1` and stay non-negative on the paths the
code exercises), wall-clock instants and durations as `ℚ`, and the
bounded `deque(maxlen=1000)` ring buffers as lists with an explicit
capacity-evicting append.
-/

namespace ImageService

/-- Configuration scalars read from the environment at import time
(`MAX_CONCURRENT`, `MAX_QUEUE_SIZE`, `REQUEST_TIMEOUT`,
`MAX_IMAGE_SIZE`, `MIN_DISK_MB`), with the documented defaults. -/
structure Config where
  maxConcurrent : Nat := 2
  maxQueueSize : Nat := 20
  requestTimeout : Nat := 120
  maxImageSize : Nat := 50 * 1024 * 1024
  minDiskMB : Nat := 500
deriving Repr, DecidableEq

/-- The default configuration (no environment overrides). -/
def defaultConfig : Config := {}

/-- An HTTP error as raised through `HTTPException(status, detail)`. -/
structure HTTPErr where
  code : Nat
  msg : String
deriving Repr, DecidableEq

/-- `deque(maxlen := cap)` append: the new sample goes to the right and
the oldest samples are evicted from the left once the buffer holds
`cap` elements. -/
def dequeAppend (cap : Nat) (l : List ℚ) (x : ℚ) : List ℚ :=
  let l := l ++ [x]
  l.drop (l.length - cap)

/-- The mutable server state relevant to the claims: the `Metrics`
dataclass fields plus the free-permit count of the
`asyncio.Semaphore(MAX_CONCURRENT)` (`semAvail` is the semaphore's
internal value; held permits are `maxConcurrent - semAvail`). -/
structure SState where
  semAvail : Nat
  totalRequests : Nat
  totalSuccess : Nat
  totalErrors : Nat
  totalTimeouts : Nat
  totalRejected : Nat
  currentProcessing : Nat
  currentQueued : Nat
  processingTimes : List ℚ
  stageBg : List ℚ
  stageProcessing : List ℚ
  stageTemplate : List ℚ
deriving Repr, DecidableEq

/-- A fresh server state for a semaphore of `c` permits: all counters
zero, all ring buffers empty (module-level `metrics = Metrics()` and
`_semaphore = asyncio.Semaphore(MAX_CONCURRENT)` in `lifespan`). -/
def initS (c : Nat) : SState :=
  { semAvail := c, totalRequests := 0, totalSuccess := 0, totalErrors := 0
    totalTimeouts := 0, totalRejected := 0, currentProcessing := 0
    currentQueued := 0, processingTimes := [], stageBg := []
    stageProcessing := [], stageTemplate := [] }

/-- `Metrics.error_rate`: `total_errors / total_requests if
total_requests else 0`. -/
def error_rate (st : SState) : ℚ :=
  if st.totalRequests ≠ 0 then (st.totalErrors : ℚ) / (st.totalRequests : ℚ) else 0

/-- `_check_disk_space()`: probe free disk (`none` models the probe
itself raising, which the code swallows as non-critical); raise
`HTTPException(503, ...)` when free megabytes are below `MIN_DISK_MB`. -/
def check_disk_space (cfg : Config) (freeBytes : Option Nat) : Option HTTPErr :=
  match freeBytes with
  | none => none
  | some free =>
    if (free : ℚ) / (1024 * 1024) < (cfg.minDiskMB : ℚ) then
      some ⟨503, "Low disk space"⟩
    else
      none

/-- The three ways the atomic head of `_acquire_slot` can go: rejected
at the queue-full check, admitted without suspending (a permit was
free), or suspended inside `await _semaphore.acquire()` with the
waiting count incremented. -/
inductive AcqResult where
  | rejected
  | admitted
  | wouldWait
deriving Repr, DecidableEq

/-- `_acquire_slot()` up to its first suspension point, which is a
single atomic block under asyncio's cooperative scheduling: reject when
`current_queued >= MAX_QUEUE_SIZE` (incrementing `total_rejected`);
otherwise increment `current_queued`, and when a permit is free take it
without suspending, so the transient increment is cancelled by the
`finally` decrement within the same atomic block and `current_processing`
is incremented; with no permit free the caller suspends holding its
queue position. -/
def acquire_slot (cfg : Config) (st : SState) : SState × AcqResult :=
  if cfg.maxQueueSize ≤ st.currentQueued then
    ({ st with totalRejected := st.totalRejected + 1 }, .rejected)
  else if 0 < st.semAvail then
    ({ st with semAvail := st.semAvail - 1
               currentProcessing := st.currentProcessing + 1 }, .admitted)
  else
    ({ st with currentQueued := st.currentQueued + 1 }, .wouldWait)

/-- `_release_slot()`: decrement `current_processing` and release the
semaphore. -/
def release_slot (st : SState) : SState :=
  { st with currentProcessing := st.currentProcessing - 1
            semAvail := st.semAvail + 1 }

/-- How the awaited `asyncio.wait_for(run_in_executor(func), timeout)`
inside `_run_processing` resolves: a result, a `TimeoutError`, an
`HTTPException` raised by `func`, or any other exception. -/
inductive FuncOutcome (α : Type) where
  | ok (r : α)
  | timeout
  | httpExc (code : Nat) (msg : String)
  | exc (msg : String)

/-- `_run_processing(func)`: disk guard, `total_requests += 1`, slot
acquisition, then the guarded executor call whose four resolutions map
to the `try/except/finally` arms, each running `_release_slot()` in the
`finally`.  The value is `none` when the caller would suspend on the
semaphore (that interleaving is modelled by the `Step` relation; this
function covers executions that are admitted without waiting, and a
caller resuming from the wait continues identically from the granted
permit). -/
def run_processing {α : Type} (cfg : Config) (freeBytes : Option Nat)
    (o : FuncOutcome α) (st : SState) : Option (SState × Except HTTPErr α) :=
  match check_disk_space cfg freeBytes with
  | some e => some (st, .error e)
  | none =>
    let st1 := { st with totalRequests := st.totalRequests + 1 }
    match acquire_slot cfg st1 with
    | (st2, .rejected) => some (st2, .error ⟨503, "Server busy"⟩)
    | (_, .wouldWait) => none
    | (st2, .admitted) =>
      match o with
      | .ok r =>
        some (release_slot { st2 with totalSuccess := st2.totalSuccess + 1 }, .ok r)
      | .timeout =>
        some (release_slot { st2 with totalTimeouts := st2.totalTimeouts + 1
                                      totalErrors := st2.totalErrors + 1 },
              .error ⟨504, "Processing timed out"⟩)
      | .httpExc c m =>
        some (release_slot { st2 with totalErrors := st2.totalErrors + 1 },
              .error ⟨c, m⟩)
      | .exc m =>
        some (release_slot { st2 with totalErrors := st2.totalErrors + 1 },
              .error ⟨500, "Processing failed: " ++ m⟩)

/-- An uploaded file as the validator `_read_image` observes it: its
byte length and the result of `PIL.Image.open` + `verify()` (`none`
when the bytes do not decode to an image). -/
structure Upload (α : Type) where
  size : Nat
  decoded : Option α

/-- `_read_image(upload)`: reject empty uploads with 400, uploads
strictly larger than `MAX_IMAGE_SIZE` with 413, and undecodable or
corrupt payloads with 400; otherwise return the bytes and the re-opened
image. -/
def read_image {α : Type} (cfg : Config) (u : Upload α) : Except HTTPErr (Nat × α) :=
  if u.size = 0 then .error ⟨400, "Empty file uploaded"⟩
  else if cfg.maxImageSize < u.size then .error ⟨413, "Image too large"⟩
  else
    match u.decoded with
    | none => .error ⟨400, "Invalid or corrupt image"⟩
    | some img => .ok (u.size, img)

/-- `remove_bg_endpoint` (the same pattern as every processing
endpoint): `await _read_image(image)` first, and only on success hand
the closure to `_run_processing`. -/
def remove_bg_endpoint {α β : Type} (cfg : Config) (u : Upload α)
    (freeBytes : Option Nat) (o : FuncOutcome β) (st : SState) :
    Option (SState × Except HTTPErr β) :=
  match read_image cfg u with
  | .error e => some (st, .error e)
  | .ok _ => run_processing cfg freeBytes o st

/-- The result of one pipeline stage: the produced image, or the stage
raising. -/
inductive StageRes (α : Type) where
  | ok (v : α)
  | err (msg : String)

/-- `StageRes.isOk`: whether the stage returned normally. -/
def StageRes.isOk {α : Type} : StageRes α → Bool
  | .ok _ => true
  | .err _ => false

/-- The `_do` closure of `process_full_endpoint`, which runs on the
executor: run `remove_background_pil`, and only after it returns append
`t1 - t0` to `stage_times["bg_removal"]`; likewise for `process_image`
and `render_template`; append the overall duration `t3 - t0` to
`processing_times` only after all three stages returned.  A stage that
raises propagates its exception out of the closure before the appends
that follow it.  `t0 ≤ t1 ≤ t2 ≤ t3` are the four `time.time()` reads. -/
def do_full {α β : Type} (removeBg procImg renderTmpl : α → StageRes α)
    (toPng : α → β) (pil : α) (t0 t1 t2 t3 : ℚ) (st : SState) :
    SState × StageRes β :=
  match removeBg pil with
  | .err m => (st, .err m)
  | .ok fg =>
    let st := { st with stageBg := dequeAppend 1000 st.stageBg (t1 - t0) }
    match procImg fg with
    | .err m => (st, .err m)
    | .ok processed =>
      let st := { st with stageProcessing :=
                    dequeAppend 1000 st.stageProcessing (t2 - t1) }
      match renderTmpl processed with
      | .err m => (st, .err m)
      | .ok result =>
        let st := { st with stageTemplate :=
                      dequeAppend 1000 st.stageTemplate (t3 - t2) }
        let st := { st with processingTimes :=
                      dequeAppend 1000 st.processingTimes (t3 - t0) }
        (st, .ok (toPng result))

/-- The shared admission state as a concurrent system: the semaphore's
free-permit count, the two gauge counters, the number of tasks suspended
inside `await _semaphore.acquire()`, the rejection counter, and whether
`_shutdown_event` has been set. -/
structure CState where
  semAvail : Nat
  currentQueued : Nat
  waiters : Nat
  currentProcessing : Nat
  totalRejected : Nat
  draining : Bool
deriving Repr, DecidableEq

/-- One atomic step of the admission system under asyncio's cooperative
scheduler, where control changes hands only at `await` points:
`rejectFull`, `admitFast` and `startWait` are the three outcomes of the
atomic head of `_acquire_slot`; `grant` is a suspended waiter resuming
after a permit was freed (running the `finally` decrement of
`current_queued` and the `current_processing` increment without further
suspension); `release` is `_release_slot` by a task that holds a slot;
`shutdown` is `_handle_shutdown`, which only sets `_shutdown_event` —
no transition is guarded on `draining`, because `_acquire_slot` never
consults the event. -/
inductive Step (C Q : Nat) : CState → CState → Prop where
  | rejectFull (s : CState) : Q ≤ s.currentQueued →
      Step C Q s { s with totalRejected := s.totalRejected + 1 }
  | admitFast (s : CState) : s.currentQueued < Q → 0 < s.semAvail →
      Step C Q s { s with semAvail := s.semAvail - 1
                          currentProcessing := s.currentProcessing + 1 }
  | startWait (s : CState) : s.currentQueued < Q →
      Step C Q s { s with currentQueued := s.currentQueued + 1
                          waiters := s.waiters + 1 }
  | grant (s : CState) : 0 < s.waiters → 0 < s.semAvail →
      Step C Q s { s with semAvail := s.semAvail - 1
                          currentQueued := s.currentQueued - 1
                          waiters := s.waiters - 1
                          currentProcessing := s.currentProcessing + 1 }
  | release (s : CState) : 0 < s.currentProcessing →
      Step C Q s { s with currentProcessing := s.currentProcessing - 1
                          semAvail := s.semAvail + 1 }
  | shutdown (s : CState) :
      Step C Q s { s with draining := true }

/-- The state right after `lifespan` constructs the semaphore: `C` free
permits, nothing queued or processing. -/
def initC (C : Nat) : CState :=
  { semAvail := C, currentQueued := 0, waiters := 0, currentProcessing := 0
    totalRejected := 0, draining := false }

/-- States reachable from startup by any interleaving of atomic steps. -/
inductive Reachable (C Q : Nat) : CState → Prop where
  | init : Reachable C Q (initC C)
  | step {s s' : CState} : Reachable C Q s → Step C Q s s' → Reachable C Q s'

/-- The inductive invariant of the admission system: permits are
conserved (`semAvail + currentProcessing = C`), the queue gauge equals
the number of suspended waiters, and the queue gauge never exceeds `Q`. -/
def AdmInv (C Q : Nat) (s : CState) : Prop :=
  s.semAvail + s.currentProcessing = C ∧
    s.currentQueued = s.waiters ∧ s.currentQueued ≤ Q

/-- The state after a non-waiting admission inside `_run_processing`:
`total_requests` incremented, one permit taken, `current_processing`
incremented. -/
def admitted_state (st : SState) : SState :=
  { st with totalRequests := st.totalRequests + 1
            semAvail := st.semAvail - 1
            currentProcessing := st.currentProcessing + 1 }

/-- The `try/except/finally` tail of `_run_processing` applied to the
post-admission state `st2`, by outcome. -/
def finish_processing {α : Type} (o : FuncOutcome α) (st2 : SState) :
    SState × Except HTTPErr α :=
  match o with
  | .ok r =>
    (release_slot { st2 with totalSuccess := st2.totalSuccess + 1 }, .ok r)
  | .timeout =>
    (release_slot { st2 with totalTimeouts := st2.totalTimeouts + 1
                             totalErrors := st2.totalErrors + 1 },
     .error ⟨504, "Processing timed out"⟩)
  | .httpExc c m =>
    (release_slot { st2 with totalErrors := st2.totalErrors + 1 },
     .error ⟨c, m⟩)
  | .exc m =>
    (release_slot { st2 with totalErrors := st2.totalErrors + 1 },
     .error ⟨500, "Processing failed: " ++ m⟩)

lemma step_preserves_inv {C Q : Nat} {s s' : CState}
    (h : Step C Q s s') (hs : AdmInv C Q s) : AdmInv C Q s' := by
  obtain ⟨h1, h2, h3⟩ := hs
  cases h <;> simp_all [AdmInv] <;> omega

lemma reachable_inv {C Q : Nat} {s : CState}
    (h : Reachable C Q s) : AdmInv C Q s := by
  induction h with
  | init => simp [AdmInv, initC]
  | step _ hstep ih => exact step_preserves_inv hstep ih

lemma acquire_slot_admits (cfg : Config) (st : SState)
    (hq : st.currentQueued < cfg.maxQueueSize) (hsem : 0 < st.semAvail) :
    acquire_slot cfg st =
      ({ st with semAvail := st.semAvail - 1
                 currentProcessing := st.currentProcessing + 1 }, .admitted) := by
  unfold acquire_slot
  rw [if_neg (by omega), if_pos hsem]

lemma run_processing_admitted {α : Type} (cfg : Config) (freeBytes : Option Nat)
    (o : FuncOutcome α) (st : SState)
    (hdisk : check_disk_space cfg freeBytes = none)
    (hq : st.currentQueued < cfg.maxQueueSize) (hsem : 0 < st.semAvail) :
    run_processing cfg freeBytes o st =
      some (finish_processing o (admitted_state st)) := by
  have hacq : acquire_slot cfg { st with totalRequests := st.totalRequests + 1 } =
      (admitted_state st, .admitted) := by
    rw [acquire_slot_admits cfg _ (by simpa using hq) (by simpa using hsem)]
    rfl
  rw [run_processing.eq_def, hdisk]
  simp only []
  rw [hacq]
  cases o <;> rfl

/-- C1: in every state reachable under any interleaving of admissions
and releases, the number of held permits (`current_processing`, which
equals `MAX_CONCURRENT - semAvail` by permit conservation) never
exceeds `C = MAX_CONCURRENT`, and the number of waiting callers
(`current_queued`) never exceeds `Q = MAX_QUEUE_SIZE`. -/
theorem held_permits_and_queue_bounded (C Q : Nat) (s : CState)
    (h : Reachable C Q s) :
    s.currentProcessing ≤ C ∧ s.currentQueued ≤ Q := by
  obtain ⟨h1, _, h3⟩ := reachable_inv h
  exact ⟨by omega, h3⟩

theorem held_permits_and_queue_bounded_witness :
    Reachable 2 20 ⟨1, 0, 0, 1, 0, false⟩ ∧
      ((⟨1, 0, 0, 1, 0, false⟩ : CState).currentProcessing ≤ 2 ∧
        (⟨1, 0, 0, 1, 0, false⟩ : CState).currentQueued ≤ 20) := by
  have hstep : Step 2 20 (initC 2)
      { initC 2 with semAvail := (initC 2).semAvail - 1
                     currentProcessing := (initC 2).currentProcessing + 1 } :=
    Step.admitFast (initC 2) (by decide) (by decide)
  have hr : Reachable 2 20 ⟨1, 0, 0, 1, 0, false⟩ := by
    have h := Reachable.step Reachable.init hstep
    exact (by decide :
      ({ initC 2 with semAvail := (initC 2).semAvail - 1
                      currentProcessing := (initC 2).currentProcessing + 1 } : CState) =
        ⟨1, 0, 0, 1, 0, false⟩) ▸ h
  exact ⟨hr, held_permits_and_queue_bounded 2 20 _ hr⟩

/-- C2: for every execution admitted via `_run_processing` (disk guard
passes, queue check passes, a permit is free), on every exit path —
success, timeout, `HTTPException`, or any other stage exception — the
final state's `current_processing` and free-permit count equal their
pre-call values: the slot is released exactly once. -/
theorem admitted_run_restores_slot {α : Type} (cfg : Config)
    (freeBytes : Option Nat) (o : FuncOutcome α) (st : SState)
    (hdisk : check_disk_space cfg freeBytes = none)
    (hq : st.currentQueued < cfg.maxQueueSize) (hsem : 0 < st.semAvail) :
    ∃ st' r, run_processing cfg freeBytes o st = some (st', r) ∧
      st'.currentProcessing = st.currentProcessing ∧
      st'.semAvail = st.semAvail := by
  refine ⟨(finish_processing o (admitted_state st)).1,
    (finish_processing o (admitted_state st)).2,
    by rw [run_processing_admitted cfg freeBytes o st hdisk hq hsem], ?_, ?_⟩ <;>
    cases o <;> simp [finish_processing, release_slot, admitted_state] <;> omega

theorem admitted_run_restores_slot_witness :
    check_disk_space defaultConfig (some (1024 * 1024 * 1024)) = none ∧
      (initS 2).currentQueued < defaultConfig.maxQueueSize ∧
      0 < (initS 2).semAvail ∧
      ∃ st' r, run_processing defaultConfig (some (1024 * 1024 * 1024))
          (FuncOutcome.timeout (α := Nat)) (initS 2) = some (st', r) ∧
        st'.currentProcessing = (initS 2).currentProcessing ∧
        st'.semAvail = (initS 2).semAvail := by
  refine ⟨?_, by decide, by decide, ?_⟩
  · simp [check_disk_space, defaultConfig]
    norm_num
  · exact admitted_run_restores_slot defaultConfig (some (1024 * 1024 * 1024))
      FuncOutcome.timeout (initS 2)
      (by simp [check_disk_space, defaultConfig]; norm_num) (by decide) (by decide)

/-- C3: an admission attempt made while `current_queued` is already at
least `MAX_QUEUE_SIZE` is rejected immediately: `total_rejected` is
incremented and nothing else changes — the waiting count is not
incremented, no permit is taken, the caller does not suspend — and
through `_run_processing` the caller gets the HTTP 503 queue-full
rejection. -/
theorem queue_full_rejected_immediately (cfg : Config) (st : SState)
    (h : cfg.maxQueueSize ≤ st.currentQueued) :
    acquire_slot cfg st =
      ({ st with totalRejected := st.totalRejected + 1 }, .rejected) ∧
    (∀ (α : Type) (o : FuncOutcome α) (freeBytes : Option Nat),
      check_disk_space cfg freeBytes = none →
        run_processing cfg freeBytes o st =
          some ({ st with totalRequests := st.totalRequests + 1
                          totalRejected := st.totalRejected + 1 },
                .error ⟨503, "Server busy"⟩)) := by
  have hacq : acquire_slot cfg st =
      ({ st with totalRejected := st.totalRejected + 1 }, .rejected) := by
    unfold acquire_slot
    rw [if_pos h]
  refine ⟨hacq, fun α o freeBytes hdisk => ?_⟩
  have hacq' : acquire_slot cfg { st with totalRequests := st.totalRequests + 1 } =
      ({ st with totalRequests := st.totalRequests + 1
                 totalRejected := st.totalRejected + 1 }, .rejected) := by
    unfold acquire_slot
    rw [if_pos (by simpa using h)]
  rw [run_processing.eq_def, hdisk]
  simp only []
  rw [hacq']

theorem queue_full_rejected_immediately_witness :
    defaultConfig.maxQueueSize ≤
        ({ initS 2 with currentQueued := 20 } : SState).currentQueued ∧
      acquire_slot defaultConfig { initS 2 with currentQueued := 20 } =
        ({ initS 2 with currentQueued := 20, totalRejected := 1 }, .rejected) := by
  have h := queue_full_rejected_immediately defaultConfig
    { initS 2 with currentQueued := 20 } (by decide)
  exact ⟨by decide, by rw [h.1]; rfl⟩

/-- C8: `error_rate()` returns `0` when `total_requests` is `0` (no
division fault), and otherwise returns `total_errors / total_requests`. -/
theorem error_rate_zero_safe (st : SState) :
    (st.totalRequests = 0 → error_rate st = 0) ∧
    (st.totalRequests ≠ 0 →
      error_rate st = (st.totalErrors : ℚ) / (st.totalRequests : ℚ)) := by
  constructor <;> intro h <;> simp [error_rate, h]

theorem error_rate_zero_safe_witness :
    ((initS 2).totalRequests = 0 ∧ error_rate (initS 2) = 0) ∧
      (({ initS 2 with totalRequests := 4, totalErrors := 1 } : SState).totalRequests ≠ 0 ∧
        error_rate { initS 2 with totalRequests := 4, totalErrors := 1 } =
          ((({ initS 2 with totalRequests := 4, totalErrors := 1 } : SState).totalErrors : ℚ) /
            (({ initS 2 with totalRequests := 4, totalErrors := 1 } : SState).totalRequests : ℚ))) :=
  ⟨⟨rfl, (error_rate_zero_safe (initS 2)).1 rfl⟩,
   ⟨by decide, (error_rate_zero_safe _).2 (by decide)⟩⟩

/-- C4 counterexample: the claim that no new admission ever succeeds
while draining is false on the code.  From startup, `_handle_shutdown`
sets the shutdown event (`draining`), and an admission attempt in that
reachable draining state succeeds — `_acquire_slot` never consults
`_shutdown_event`, so the admitted task takes a permit and
`current_processing` rises. -/
theorem draining_admission_succeeds_counterexample :
    Reachable 2 20 ⟨2, 0, 0, 0, 0, true⟩ ∧
      (⟨2, 0, 0, 0, 0, true⟩ : CState).draining = true ∧
      Step 2 20 ⟨2, 0, 0, 0, 0, true⟩ ⟨1, 0, 0, 1, 0, true⟩ ∧
      (⟨1, 0, 0, 1, 0, true⟩ : CState).currentProcessing =
        (⟨2, 0, 0, 0, 0, true⟩ : CState).currentProcessing + 1 := by
  have h1 : Step 2 20 (initC 2) { initC 2 with draining := true } :=
    Step.shutdown (initC 2)
  have hr : Reachable 2 20 ⟨2, 0, 0, 0, 0, true⟩ := by
    have h := Reachable.step Reachable.init h1
    exact (by decide :
      ({ initC 2 with draining := true } : CState) = ⟨2, 0, 0, 0, 0, true⟩) ▸ h
  have h2 : Step 2 20 (⟨2, 0, 0, 0, 0, true⟩ : CState)
      { (⟨2, 0, 0, 0, 0, true⟩ : CState) with
          semAvail := (⟨2, 0, 0, 0, 0, true⟩ : CState).semAvail - 1
          currentProcessing := (⟨2, 0, 0, 0, 0, true⟩ : CState).currentProcessing + 1 } :=
    Step.admitFast ⟨2, 0, 0, 0, 0, true⟩ (by decide) (by decide)
  exact ⟨hr, rfl,
    (by decide : ({ (⟨2, 0, 0, 0, 0, true⟩ : CState) with
        semAvail := (⟨2, 0, 0, 0, 0, true⟩ : CState).semAvail - 1
        currentProcessing := (⟨2, 0, 0, 0, 0, true⟩ : CState).currentProcessing + 1 } :
          CState) = ⟨1, 0, 0, 1, 0, true⟩) ▸ h2, rfl⟩

/-- C4 amended: on the shutdown signal `_handle_shutdown` only sets the
shutdown event — the step to the draining state leaves every gauge
(including `current_processing`) untouched and aborts nothing — and
admission is not gated on draining: in any state, draining or not, an
admission attempt with the queue below `Q` and a free permit succeeds
exactly as while running; the code contains no `ShuttingDown` rejection
and no explicit wait for `current_processing` to reach zero. -/
theorem draining_does_not_gate_admission (C Q : Nat) (s : CState) :
    Step C Q s { s with draining := true } ∧
      (s.currentQueued < Q → 0 < s.semAvail →
        Step C Q s { s with semAvail := s.semAvail - 1
                            currentProcessing := s.currentProcessing + 1 }) :=
  ⟨Step.shutdown s, fun h1 h2 => Step.admitFast s h1 h2⟩

theorem draining_does_not_gate_admission_witness :
    (⟨2, 0, 0, 0, 0, true⟩ : CState).currentQueued < 20 ∧
      0 < (⟨2, 0, 0, 0, 0, true⟩ : CState).semAvail ∧
      Step 2 20 ⟨2, 0, 0, 0, 0, true⟩
        { (⟨2, 0, 0, 0, 0, true⟩ : CState) with
            semAvail := (⟨2, 0, 0, 0, 0, true⟩ : CState).semAvail - 1
            currentProcessing :=
              (⟨2, 0, 0, 0, 0, true⟩ : CState).currentProcessing + 1 } :=
  ⟨by decide, by decide,
    (draining_does_not_gate_admission 2 20 ⟨2, 0, 0, 0, 0, true⟩).2
      (by decide) (by decide)⟩

/-- C5 counterexample: the claim that each stage's duration is recorded
regardless of whether the stage succeeds or fails is false on the code:
in `process_full_endpoint`'s closure the append to
`stage_times["bg_removal"]` sits after the `remove_background_pil`
call, so when that stage raises, the closure exits with the state
untouched — no stage timing and no overall timing is recorded. -/
theorem failed_stage_records_no_timing :
    do_full (fun _ : Nat => StageRes.err "stage fault") (fun v => StageRes.ok v)
        (fun v => StageRes.ok v) (fun v => v) 7 0 1 2 3 (initS 2) =
      (initS 2, StageRes.err "stage fault") ∧
      (initS 2).stageBg = [] ∧ (initS 2).processingTimes = [] :=
  ⟨rfl, rfl, rfl⟩

/-- C5 amended: a stage's wall-clock duration is recorded as a
`StageTiming` only when that stage returns successfully; a raising
stage records neither its own timing nor any later stage's, and the
overall duration is appended to `processing_times` only when every
stage succeeded. -/
theorem stage_timings_recorded_iff_stage_succeeds {α β : Type}
    (removeBg procImg renderTmpl : α → StageRes α) (toPng : α → β) (pil : α)
    (t0 t1 t2 t3 : ℚ) (st st' : SState) (r : StageRes β)
    (hrun : do_full removeBg procImg renderTmpl toPng pil t0 t1 t2 t3 st = (st', r)) :
    (∀ m, removeBg pil = .err m → st' = st) ∧
    (∀ fg, removeBg pil = .ok fg →
      st'.stageBg = dequeAppend 1000 st.stageBg (t1 - t0) ∧
      (∀ m, procImg fg = .err m →
        st'.stageProcessing = st.stageProcessing ∧
        st'.stageTemplate = st.stageTemplate ∧
        st'.processingTimes = st.processingTimes) ∧
      (∀ pr, procImg fg = .ok pr →
        st'.stageProcessing = dequeAppend 1000 st.stageProcessing (t2 - t1) ∧
        (∀ m, renderTmpl pr = .err m →
          st'.stageTemplate = st.stageTemplate ∧
          st'.processingTimes = st.processingTimes) ∧
        (∀ res, renderTmpl pr = .ok res →
          st'.stageTemplate = dequeAppend 1000 st.stageTemplate (t3 - t2) ∧
          st'.processingTimes = dequeAppend 1000 st.processingTimes (t3 - t0)))) := by
  rw [do_full.eq_def] at hrun
  repeat' split at hrun
  all_goals rw [Prod.mk.injEq] at hrun
  all_goals obtain ⟨rfl, rfl⟩ := hrun
  all_goals simp_all

theorem stage_timings_recorded_iff_stage_succeeds_witness :
    (fun v : Nat => StageRes.ok v) 7 = StageRes.ok 7 ∧
      (do_full (fun v : Nat => StageRes.ok v) (fun v => StageRes.ok v)
          (fun v => StageRes.ok v) (fun v => v) 7 0 1 2 3 (initS 2)).1.stageBg =
        dequeAppend 1000 (initS 2).stageBg (1 - 0) ∧
      (do_full (fun v : Nat => StageRes.ok v) (fun v => StageRes.ok v)
          (fun v => StageRes.ok v) (fun v => v) 7 0 1 2 3 (initS 2)).1.processingTimes =
        dequeAppend 1000 (initS 2).processingTimes (3 - 0) := by
  have h := stage_timings_recorded_iff_stage_succeeds
    (fun v : Nat => StageRes.ok v) (fun v => StageRes.ok v) (fun v => StageRes.ok v)
    (fun v => v) 7 0 1 2 3 (initS 2)
    (do_full (fun v : Nat => StageRes.ok v) (fun v => StageRes.ok v)
      (fun v => StageRes.ok v) (fun v => v) 7 0 1 2 3 (initS 2)).1
    (do_full (fun v : Nat => StageRes.ok v) (fun v => StageRes.ok v)
      (fun v => StageRes.ok v) (fun v => v) 7 0 1 2 3 (initS 2)).2 rfl
  exact ⟨rfl, (h.2 7 rfl).1, (((h.2 7 rfl).2.2 7 rfl).2.2 7 rfl).2⟩

/-- C6: when the disk guard measures free space below `MIN_DISK_MB`,
`_run_processing` returns the 503 resource error with the state
literally unchanged — `total_requests` is not incremented, no slot is
acquired or released, no permit state changes, and no stage outcome is
consumed. -/
theorem disk_guard_fails_before_anything {α : Type} (cfg : Config) (free : Nat)
    (o : FuncOutcome α) (st : SState)
    (h : (free : ℚ) / (1024 * 1024) < (cfg.minDiskMB : ℚ)) :
    run_processing cfg (some free) o st =
      some (st, .error ⟨503, "Low disk space"⟩) := by
  have hd : check_disk_space cfg (some free) = some ⟨503, "Low disk space"⟩ := by
    simp [check_disk_space, h]
  rw [run_processing.eq_def, hd]

theorem disk_guard_fails_before_anything_witness :
    ((0 : Nat) : ℚ) / (1024 * 1024) < (defaultConfig.minDiskMB : ℚ) ∧
      run_processing defaultConfig (some 0) (FuncOutcome.ok (0 : Nat)) (initS 2) =
        some (initS 2, .error ⟨503, "Low disk space"⟩) := by
  have h0 : ((0 : Nat) : ℚ) / (1024 * 1024) < (defaultConfig.minDiskMB : ℚ) := by
    norm_num [defaultConfig]
  exact ⟨h0, disk_guard_fails_before_anything defaultConfig 0 _ (initS 2) h0⟩

/-- C7: a generic exception raised by the stage function during an
admitted execution is caught by the `except Exception` arm of
`_run_processing` and converted to `HTTPException(500, ...)` — it does
not escape unhandled — and the `finally` arm still releases the slot,
so `current_processing` and the permit count are back at their pre-call
values while `total_errors` records the failure. -/
theorem stage_exception_converted_and_released {α : Type} (cfg : Config)
    (freeBytes : Option Nat) (m : String) (st : SState)
    (hdisk : check_disk_space cfg freeBytes = none)
    (hq : st.currentQueued < cfg.maxQueueSize) (hsem : 0 < st.semAvail) :
    ∃ st', run_processing cfg freeBytes (FuncOutcome.exc m : FuncOutcome α) st =
        some (st', .error ⟨500, "Processing failed: " ++ m⟩) ∧
      st'.currentProcessing = st.currentProcessing ∧
      st'.semAvail = st.semAvail ∧
      st'.totalErrors = st.totalErrors + 1 := by
  refine ⟨(finish_processing (FuncOutcome.exc m : FuncOutcome α) (admitted_state st)).1,
    ?_, ?_, ?_, ?_⟩
  · rw [run_processing_admitted cfg freeBytes _ st hdisk hq hsem]; rfl
  · simp [finish_processing, release_slot, admitted_state]
  · simp [finish_processing, release_slot, admitted_state]; omega
  · simp [finish_processing, release_slot, admitted_state]

theorem stage_exception_converted_and_released_witness :
    check_disk_space defaultConfig none = none ∧
      (initS 2).currentQueued < defaultConfig.maxQueueSize ∧
      0 < (initS 2).semAvail ∧
      ∃ st', run_processing defaultConfig none
          (FuncOutcome.exc "assert tripped" : FuncOutcome Nat) (initS 2) =
          some (st', .error ⟨500, "Processing failed: " ++ "assert tripped"⟩) ∧
        st'.currentProcessing = (initS 2).currentProcessing ∧
        st'.semAvail = (initS 2).semAvail ∧
        st'.totalErrors = (initS 2).totalErrors + 1 :=
  ⟨rfl, by decide, by decide,
    stage_exception_converted_and_released defaultConfig none "assert tripped"
      (initS 2) rfl (by decide) (by decide)⟩

lemma acquire_slot_counters (cfg : Config) (st : SState) :
    (acquire_slot cfg st).1.totalRequests = st.totalRequests ∧
      (acquire_slot cfg st).1.totalSuccess = st.totalSuccess ∧
      (acquire_slot cfg st).1.totalErrors = st.totalErrors ∧
      (acquire_slot cfg st).1.totalTimeouts = st.totalTimeouts ∧
      st.totalRejected ≤ (acquire_slot cfg st).1.totalRejected ∧
      (acquire_slot cfg st).1.totalRejected ≤ st.totalRejected + 1 := by
  unfold acquire_slot
  split_ifs <;> simp

/-- C9: an upload that fails validation in `_read_image` — empty file
(400), size strictly above `MAX_IMAGE_SIZE` (413), or an undecodable or
corrupt payload (400) — is refused before admission: the endpoint
returns the validation error with the state literally unchanged, so
`total_requests` is not incremented, no slot is acquired or released,
and no timing sample is recorded. -/
theorem invalid_upload_rejected_before_admission {α β : Type} (cfg : Config)
    (u : Upload α) (freeBytes : Option Nat) (o : FuncOutcome β) (st : SState) :
    (u.size = 0 →
      remove_bg_endpoint cfg u freeBytes o st =
        some (st, .error ⟨400, "Empty file uploaded"⟩)) ∧
    (cfg.maxImageSize < u.size →
      remove_bg_endpoint cfg u freeBytes o st =
        some (st, .error ⟨413, "Image too large"⟩)) ∧
    (u.size ≠ 0 → u.size ≤ cfg.maxImageSize → u.decoded = none →
      remove_bg_endpoint cfg u freeBytes o st =
        some (st, .error ⟨400, "Invalid or corrupt image"⟩)) := by
  refine ⟨fun h0 => ?_, fun h1 => ?_, fun h0 h1 h2 => ?_⟩
  · have hr : read_image cfg u = .error ⟨400, "Empty file uploaded"⟩ := by
      unfold read_image
      rw [if_pos h0]
    rw [remove_bg_endpoint.eq_def, hr]
  · have hr : read_image cfg u = .error ⟨413, "Image too large"⟩ := by
      unfold read_image
      rw [if_neg (by omega), if_pos h1]
    rw [remove_bg_endpoint.eq_def, hr]
  · have hr : read_image cfg u = .error ⟨400, "Invalid or corrupt image"⟩ := by
      unfold read_image
      rw [if_neg h0, if_neg (by omega), h2]
    rw [remove_bg_endpoint.eq_def, hr]

theorem invalid_upload_rejected_before_admission_witness :
    ((⟨0, none⟩ : Upload Nat).size = 0 ∧
      remove_bg_endpoint defaultConfig (⟨0, none⟩ : Upload Nat) none
          (FuncOutcome.ok (0 : Nat)) (initS 2) =
        some (initS 2, .error ⟨400, "Empty file uploaded"⟩)) ∧
    (defaultConfig.maxImageSize < (⟨52428801, none⟩ : Upload Nat).size ∧
      remove_bg_endpoint defaultConfig (⟨52428801, none⟩ : Upload Nat) none
          (FuncOutcome.ok (0 : Nat)) (initS 2) =
        some (initS 2, .error ⟨413, "Image too large"⟩)) ∧
    ((⟨5, none⟩ : Upload Nat).decoded = none ∧
      remove_bg_endpoint defaultConfig (⟨5, none⟩ : Upload Nat) none
          (FuncOutcome.ok (0 : Nat)) (initS 2) =
        some (initS 2, .error ⟨400, "Invalid or corrupt image"⟩)) :=
  ⟨⟨rfl, (invalid_upload_rejected_before_admission defaultConfig
      (⟨0, none⟩ : Upload Nat) none (FuncOutcome.ok (0 : Nat)) (initS 2)).1 rfl⟩,
   ⟨by decide, (invalid_upload_rejected_before_admission defaultConfig
      (⟨52428801, none⟩ : Upload Nat) none (FuncOutcome.ok (0 : Nat)) (initS 2)).2.1
      (by decide)⟩,
   ⟨rfl, (invalid_upload_rejected_before_admission defaultConfig
      (⟨5, none⟩ : Upload Nat) none (FuncOutcome.ok (0 : Nat)) (initS 2)).2.2
      (by decide) (by decide) rfl⟩⟩

/-- C10: a timed-out admitted execution increments both
`total_timeouts` and `total_errors` (leaving `total_success` and
`total_rejected` alone), a successful admitted execution increments
`total_success` among the outcome counters (leaving `total_errors`,
`total_timeouts`, `total_rejected` alone; `total_requests` is
incremented for every attempt before admission), and across every
operation — `_run_processing` on any path, `_acquire_slot`,
`_release_slot`, and every step of the concurrent admission system —
the five counters `total_requests`, `total_success`, `total_errors`,
`total_timeouts`, `total_rejected` never decrease. -/
theorem counters_monotone_and_outcome_counts {β : Type} (cfg : Config)
    (freeBytes : Option Nat) (o : FuncOutcome β) (v : β) (st : SState) :
    (∀ st' r, run_processing cfg freeBytes o st = some (st', r) →
      st.totalRequests ≤ st'.totalRequests ∧ st.totalSuccess ≤ st'.totalSuccess ∧
      st.totalErrors ≤ st'.totalErrors ∧ st.totalTimeouts ≤ st'.totalTimeouts ∧
      st.totalRejected ≤ st'.totalRejected) ∧
    (st.totalRequests ≤ (acquire_slot cfg st).1.totalRequests ∧
      st.totalSuccess ≤ (acquire_slot cfg st).1.totalSuccess ∧
      st.totalErrors ≤ (acquire_slot cfg st).1.totalErrors ∧
      st.totalTimeouts ≤ (acquire_slot cfg st).1.totalTimeouts ∧
      st.totalRejected ≤ (acquire_slot cfg st).1.totalRejected) ∧
    ((release_slot st).totalRequests = st.totalRequests ∧
      (release_slot st).totalSuccess = st.totalSuccess ∧
      (release_slot st).totalErrors = st.totalErrors ∧
      (release_slot st).totalTimeouts = st.totalTimeouts ∧
      (release_slot st).totalRejected = st.totalRejected) ∧
    (check_disk_space cfg freeBytes = none → st.currentQueued < cfg.maxQueueSize →
      0 < st.semAvail →
      (∀ st' r, run_processing cfg freeBytes (FuncOutcome.timeout : FuncOutcome β) st =
          some (st', r) →
        st'.totalTimeouts = st.totalTimeouts + 1 ∧
        st'.totalErrors = st.totalErrors + 1 ∧
        st'.totalSuccess = st.totalSuccess ∧
        st'.totalRejected = st.totalRejected) ∧
      (∀ st' r, run_processing cfg freeBytes (FuncOutcome.ok v) st = some (st', r) →
        st'.totalSuccess = st.totalSuccess + 1 ∧
        st'.totalErrors = st.totalErrors ∧
        st'.totalTimeouts = st.totalTimeouts ∧
        st'.totalRejected = st.totalRejected)) ∧
    (∀ (C Q : Nat) (s s' : CState), Step C Q s s' →
      s.totalRejected ≤ s'.totalRejected) := by
  refine ⟨?_, ?_, ?_, ?_, ?_⟩
  · intro st' r h
    rw [run_processing.eq_def] at h
    rcases hd : check_disk_space cfg freeBytes with _ | e
    · rw [hd] at h
      simp only [] at h
      have hc := acquire_slot_counters cfg { st with totalRequests := st.totalRequests + 1 }
      rcases hacq : acquire_slot cfg { st with totalRequests := st.totalRequests + 1 }
        with ⟨st2, ares⟩
      rw [hacq] at h hc
      simp only [] at hc
      obtain ⟨hc1, hc2, hc3, hc4, hc5, hc6⟩ := hc
      cases ares with
      | rejected =>
        simp only [Option.some.injEq, Prod.mk.injEq] at h
        obtain ⟨rfl, rfl⟩ := h
        refine ⟨?_, ?_, ?_, ?_, ?_⟩ <;> omega
      | wouldWait => simp at h
      | admitted =>
        cases o <;>
          (simp only [Option.some.injEq, Prod.mk.injEq] at h;
           obtain ⟨rfl, rfl⟩ := h;
           refine ⟨?_, ?_, ?_, ?_, ?_⟩ <;> simp [release_slot] <;> omega)
    · rw [hd] at h
      simp only [Option.some.injEq, Prod.mk.injEq] at h
      obtain ⟨rfl, rfl⟩ := h
      simp
  · obtain ⟨h1, h2, h3, h4, h5, h6⟩ := acquire_slot_counters cfg st
    refine ⟨?_, ?_, ?_, ?_, ?_⟩ <;> omega
  · simp [release_slot]
  · intro hdisk hq hsem
    constructor
    · intro st' r h
      rw [run_processing_admitted cfg freeBytes FuncOutcome.timeout st hdisk hq hsem] at h
      simp only [finish_processing, Option.some.injEq, Prod.mk.injEq] at h
      obtain ⟨rfl, rfl⟩ := h
      simp [release_slot, admitted_state]
    · intro st' r h
      rw [run_processing_admitted cfg freeBytes (FuncOutcome.ok v) st hdisk hq hsem] at h
      simp only [finish_processing, Option.some.injEq, Prod.mk.injEq] at h
      obtain ⟨rfl, rfl⟩ := h
      simp [release_slot, admitted_state]
  · intro C Q s s' hstep
    cases hstep <;> simp

theorem counters_monotone_and_outcome_counts_witness :
    check_disk_space defaultConfig none = none ∧
      (initS 2).currentQueued < defaultConfig.maxQueueSize ∧
      0 < (initS 2).semAvail ∧
      run_processing defaultConfig none (FuncOutcome.ok (0 : Nat)) (initS 2) =
        some ({ initS 2 with totalRequests := 1, totalSuccess := 1 }, .ok 0) ∧
      ({ initS 2 with totalRequests := 1, totalSuccess := 1 } : SState).totalSuccess =
          (initS 2).totalSuccess + 1 ∧
      ({ initS 2 with totalRequests := 1, totalSuccess := 1 } : SState).totalErrors =
          (initS 2).totalErrors ∧
      ({ initS 2 with totalRequests := 1, totalSuccess := 1 } : SState).totalTimeouts =
          (initS 2).totalTimeouts ∧
      ({ initS 2 with totalRequests := 1, totalSuccess := 1 } : SState).totalRejected =
          (initS 2).totalRejected := by
  have h := counters_monotone_and_outcome_counts defaultConfig none
    (FuncOutcome.ok (0 : Nat)) 0 (initS 2)
  have hrun : run_processing defaultConfig none (FuncOutcome.ok (0 : Nat)) (initS 2) =
      some ({ initS 2 with totalRequests := 1, totalSuccess := 1 }, .ok 0) := rfl
  exact ⟨rfl, by decide, by decide, hrun,
    (h.2.2.2.1 rfl (by decide) (by decide)).2 _ _ hrun⟩

end ImageService
